import Mathlib

/-!
Verification of `alphainspect/reports.py` (report composition engine).

The Python module is shallowly embedded below.  Pure string/number helpers
(`str.replace`, `str.endswith`, `math.ceil`, dict comprehension, base64) are
translated directly from Python semantics; the analytic adapters
(`calc_ic`, `calc_cum_return_by_quantile`, `calc_auto_correlation`,
`calc_quantile_turnover`) and the panel renderers live in sibling modules that
are outside the verified source tree, so they are modelled from their contracts
in the accompanying design document: adapters are pure constructors that record
their arguments (provenance) plus abstract data supplied by an `Adapters`
bundle, and each renderer invocation is recorded as a `PanelDraw` event on the
grid slot it targets.
-/

namespace AlphaInspect

/-- `math.ceil (a / b)` for the natural-number counts used by the layout code
(`ceil(count / 2)` in `create_2x3_sheet`). -/
def ceilDiv (a b : Nat) : Nat := (a + b - 1) / b

/-- Fuel-indexed worker for Python `str.replace`: scan left to right, replace
each non-overlapping occurrence of `pat`.  The fuel is the length of the
scanned list, which suffices because every step consumes at least one
character (the pattern is non-empty at every call site). -/
def pyReplaceGo (pat rep : List Char) : Nat → List Char → List Char
  | _, [] => []
  | 0, s => s
  | fuel + 1, c :: rest =>
    if pat.isPrefixOf (c :: rest) then
      rep ++ pyReplaceGo pat rep fuel ((c :: rest).drop pat.length)
    else
      c :: pyReplaceGo pat rep fuel rest

/-- Python `s.replace(pat, rep)` on character lists (all occurrences,
left-to-right, non-overlapping; `pat` non-empty at every call site). -/
def pyReplace (pat rep s : List Char) : List Char := pyReplaceGo pat rep s.length s

/-- Python `s.replace(pat, rep)` on strings. -/
def pyReplaceStr (s pat rep : String) : String := String.mk (pyReplace pat.data rep.data s.data)

/-- Python `s.endswith(suffix)`. -/
def pyEndsWith (s suffix : String) : Bool := suffix.data.isSuffixOf s.data

/-- Python `dict` insertion: overwriting an existing key keeps its original
position, a fresh key is appended. -/
def pyDictInsert (d : List (String × String)) (k v : String) : List (String × String) :=
  if d.any (fun kv => kv.1 == k) then
    d.map (fun kv => if kv.1 == k then (k, v) else kv)
  else
    d ++ [(k, v)]

/-- Python dict comprehension over a key/value sequence (later values win,
first-insertion order kept). -/
def pyDictComp (l : List (String × String)) : List (String × String) :=
  l.foldl (fun d kv => pyDictInsert d kv.1 kv.2) []

/-- The standard base64 alphabet used by `base64.b64encode`. -/
def b64Alphabet : List Char :=
  "ABCDEFGHIJKLMNOPQRSTUVWXYZabcdefghijklmnopqrstuvwxyz0123456789+/".data

/-- Character for one 6-bit group. -/
def b64char (n : Nat) : Char := b64Alphabet.getD n '='

/-- RFC 4648 base64 of a byte list (3 bytes to 4 chars, `=`-padded tail),
matching `base64.b64encode`. -/
def b64chunks : List Nat → List Char
  | a :: b :: c :: rest =>
    b64char (a / 4) :: b64char (a % 4 * 16 + b / 16) ::
      b64char (b % 16 * 4 + c / 64) :: b64char (c % 64) :: b64chunks rest
  | [a, b] => [b64char (a / 4), b64char (a % 4 * 16 + b / 16), b64char (b % 16 * 4), '=']
  | [a] => [b64char (a / 4), b64char (a % 4 * 16), '=', '=']
  | [] => []

/-- `base64.b64encode(bytes).decode()`. -/
def b64encode (bs : List Nat) : String := String.mk (b64chunks bs)

/-- polars `Series.min` on an integer column: `None` on an empty column. -/
def pySeriesMin : List Int → Option Int
  | [] => none
  | a :: rest => some (rest.foldl min a)

/-- polars `Series.max` on an integer column: `None` on an empty column. -/
def pySeriesMax : List Int → Option Int
  | [] => none
  | a :: rest => some (rest.foldl max a)

section Model

variable (DF S : Type)

/-- A matplotlib figure as produced by `plt.subplots(rows, cols, figsize)`:
only its grid shape and size are observable to the layout code. -/
structure Fig where
  rows : Nat
  cols : Nat
  figsize : Nat × Nat
deriving Repr, DecidableEq

/-- Modelled from the spec: output of `calc_ic` (module `alphainspect.ic`,
outside the verified tree) — an ordered-by-time table with one column per
(factor, forward-return) pair, recorded here by its provenance. -/
structure ICFrame where
  src : DF
  factors : List String
  rets : List String

/-- Modelled from the spec: `calc_ic(df, factors, rets)` is a pure function of
its arguments (§4.1), kept abstract as a provenance-recording constructor. -/
def calc_ic (df : DF) (factors rets : List String) : ICFrame DF := ⟨df, factors, rets⟩

/-- Modelled from the spec: the IC table's column list — the date column
followed by one column per (factor, forward-return) pair. -/
def ICFrame.columns (f : ICFrame DF) : List String :=
  "date" :: f.factors.flatMap (fun fa => f.rets.map (fun r => fa ++ "__" ++ r))

/-- Modelled from the spec: output of `calc_cum_return_by_quantile`
(module `alphainspect.portfolio`, outside the verified tree), recorded by
provenance. -/
structure CumRetFrame where
  src : DF
  fwd_ret : String
  period : Nat
  quantile_col : String

/-- Modelled from the spec: `calc_cum_return_by_quantile` is a pure function of
its arguments (§4.1). -/
def calc_cum_return_by_quantile (df : DF) (fwd : String) (period : Nat) (q : String) :
    CumRetFrame DF := ⟨df, fwd, period, q⟩

/-- Modelled from the spec: output of `calc_auto_correlation`
(module `alphainspect.turnover`, outside the verified tree). -/
structure ACorrFrame where
  src : DF
  factor : String
  periods : List Nat

/-- Modelled from the spec: `calc_auto_correlation` is a pure function of its
arguments (§4.1). -/
def calc_auto_correlation (df : DF) (factor : String) (periods : List Nat) : ACorrFrame DF :=
  ⟨df, factor, periods⟩

/-- Modelled from the spec: output of `calc_quantile_turnover`
(module `alphainspect.turnover`, outside the verified tree); its
`factor_quantile` column contents are abstract data supplied by the adapter
bundle. -/
structure TurnoverFrame where
  src : DF
  periods : List Nat
  quantile_col : String
  quantile_values : List Int

/-- Abstract data produced by the out-of-tree analytic adapters and panel
renderers, per their contracts: renderer summary mappings depend on the series
and column they are given (reference-line annotation is cosmetic, §4.2), and
the turnover table's quantile column is a function of the adapter's inputs. -/
structure Adapters where
  icSummary : ICFrame DF → String → S
  histSummaryDataset : DF → String → S
  turnoverQuantiles : DF → List Nat → String → List Int

variable {DF S} in
/-- Modelled from the spec: `calc_quantile_turnover(df, periods, quantile_col)`
is a pure function of its arguments (§4.1); the contents of its quantile
column come from the adapter bundle. -/
def calc_quantile_turnover (A : Adapters DF S) (df : DF) (periods : List Nat) (q : String) :
    TurnoverFrame DF :=
  ⟨df, periods, q, A.turnoverQuantiles df periods q⟩

/-- The two kinds of table `plot_hist` is called on in `reports.py`. -/
inductive HistSrc where
  | dataset (df : DF)
  | ic (f : ICFrame DF)

/-- One renderer invocation recorded with the derived series it was given and
the flattened grid slot it draws into. -/
inductive PanelDraw where
  | icTs (f : ICFrame DF) (col : String) (axvlines : List String) (slot : Nat)
  | icHeatmap (f : ICFrame DF) (col : String) (slot : Nat)
  | hist (src : HistSrc DF) (col : String) (slot : Nat)
  | quantilePortfolio (f : CumRetFrame DF) (fwd : String) (period : Nat)
      (axvlines : List String) (slot : Nat)
  | autoCorrelation (f : ACorrFrame DF) (axvlines : List String) (slot : Nat)
  | turnoverQuantile (f : TurnoverFrame DF) (quantile : Option Int) (qcol : String)
      (periods : List Nat) (axvlines : List String) (slot : Nat)

variable {DF} in
/-- Flattened grid slot a draw targets (row-major index into `axes`). -/
def PanelDraw.slot : PanelDraw DF → Nat
  | .icTs _ _ _ s => s
  | .icHeatmap _ _ s => s
  | .hist _ _ s => s
  | .quantilePortfolio _ _ _ _ s => s
  | .autoCorrelation _ _ s => s
  | .turnoverQuantile _ _ _ _ _ s => s

variable {DF} in
/-- The dataset snapshot a draw's series was derived from. -/
def PanelDraw.srcOf : PanelDraw DF → DF
  | .icTs f _ _ _ => f.src
  | .icHeatmap f _ _ => f.src
  | .hist (.dataset df) _ _ => df
  | .hist (.ic f) _ _ => f.src
  | .quantilePortfolio f _ _ _ _ => f.src
  | .autoCorrelation f _ _ => f.src
  | .turnoverQuantile f _ _ _ _ _ => f.src

variable {DF} in
/-- The quantile-bucket column a draw's series was bucketed by, when any. -/
def PanelDraw.quantileColOf : PanelDraw DF → Option String
  | .quantilePortfolio f _ _ _ _ => some f.quantile_col
  | .turnoverQuantile f _ _ _ _ _ => some f.quantile_col
  | _ => none

/-- The Python return value of a sheet builder: `None`, a bare figure, or the
`(fig, ic_dict, hist_dict, df_cum_ret)` tuple.  (`figureOnly` expresses the
design document's `Figure` alternative; it is never produced.) -/
inductive SheetReturn where
  | none
  | figureOnly (fig : Fig)
  | tuple (fig : Fig) (ic_dict : S) (hist_dict : S) (cum : CumRetFrame DF)

/-- Everything observable about one sheet-build call: the allocated figure,
the renderer invocations in program order, the Python return value, and the
caller's table when the call returns. -/
structure SheetBuild where
  fig : Fig
  draws : List (PanelDraw DF)
  ret : SheetReturn DF S
  df_after : DF

end Model

section Builders

variable (DF S : Type)

/-- `create_2x2_sheet` (reports.py lines 107-150): 2×2 grid; IC time series,
IC monthly heatmap, factor histogram, one cumulative-return curve; returns
`None`. -/
def create_2x2_sheet (A : Adapters DF S) (df_pl : DF)
    (factor forward_return fwd_ret_1 : String) (period : Nat) (factor_quantile : String)
    (figsize : Nat × Nat) (axvlines : List String) : SheetBuild DF S :=
  let fig : Fig := ⟨2, 2, figsize⟩
  let df_ic := calc_ic DF df_pl [factor] [forward_return]
  let col := (ICFrame.columns DF df_ic).getD 1 ""
  let df_cum_ret := calc_cum_return_by_quantile DF df_pl fwd_ret_1 period factor_quantile
  { fig := fig
    draws := [.icTs df_ic col axvlines 0,
              .icHeatmap df_ic col 1,
              .hist (.dataset df_pl) factor 2,
              .quantilePortfolio df_cum_ret fwd_ret_1 period axvlines 3]
    ret := SheetReturn.none
    df_after := df_pl }

/-- `create_1x3_sheet` (reports.py lines 153-197): 1×3 grid; IC time series,
cumulative-return curve, factor histogram; returns
`(fig, ic_dict, hist_dict, df_cum_ret)`. -/
def create_1x3_sheet (A : Adapters DF S) (df_pl : DF)
    (factor forward_return fwd_ret_1 : String) (period : Nat) (factor_quantile : String)
    (figsize : Nat × Nat) (axvlines : List String) : SheetBuild DF S :=
  let fig : Fig := ⟨1, 3, figsize⟩
  let df_ic := calc_ic DF df_pl [factor] [forward_return]
  let col := (ICFrame.columns DF df_ic).getD 1 ""
  let ic_dict := A.icSummary df_ic col
  let df_cum_ret := calc_cum_return_by_quantile DF df_pl fwd_ret_1 period factor_quantile
  let hist_dict := A.histSummaryDataset df_pl factor
  { fig := fig
    draws := [.icTs df_ic col axvlines 0,
              .quantilePortfolio df_cum_ret fwd_ret_1 period axvlines 1,
              .hist (.dataset df_pl) factor 2]
    ret := SheetReturn.tuple fig ic_dict hist_dict df_cum_ret
    df_after := df_pl }

variable {DF} in
/-- The `for i, period in enumerate(periods)` loop of `create_2x3_sheet`
(reports.py lines 239-241): one cumulative-return panel per period, drawn into
slot `3 + i`. -/
def cumRetDraws (df_pl : DF) (fwd_ret_1 factor_quantile : String) (axvlines : List String) :
    Nat → List Nat → List (PanelDraw DF)
  | _, [] => []
  | i, p :: ps =>
    .quantilePortfolio (calc_cum_return_by_quantile DF df_pl fwd_ret_1 p factor_quantile)
        fwd_ret_1 p axvlines (3 + i) :: cumRetDraws df_pl fwd_ret_1 factor_quantile axvlines (i + 1) ps

/-- `create_2x3_sheet` (reports.py lines 200-243): `count = len(periods) + 3`
panels on a `2 × ceil(count / 2)` grid; IC time series, IC histogram, IC
monthly heatmap, then one cumulative-return panel per requested period;
returns `None`. -/
def create_2x3_sheet (A : Adapters DF S) (df_pl : DF)
    (factor forward_return fwd_ret_1 : String) (periods : List Nat) (factor_quantile : String)
    (figsize : Nat × Nat) (axvlines : List String) : SheetBuild DF S :=
  let count := periods.length + 3
  let fig : Fig := ⟨2, ceilDiv count 2, figsize⟩
  let df_ic := calc_ic DF df_pl [factor] [forward_return]
  let col := (ICFrame.columns DF df_ic).getD 1 ""
  { fig := fig
    draws := [.icTs df_ic col axvlines 0,
              .hist (.ic df_ic) col 1,
              .icHeatmap df_ic col 2] ++
             cumRetDraws df_pl fwd_ret_1 factor_quantile axvlines 0 periods
    ret := SheetReturn.none
    df_after := df_pl }

/-- `create_3x2_sheet` (reports.py lines 246-298): 3×2 grid; IC time series,
IC histogram, IC monthly heatmap, one cumulative-return curve, factor
autocorrelation, and the turnover curve of the quantile bucket
`df_turnover[factor_quantile].max()`; returns `None`.  Slots are row-major
indices of `axes[r, c]`. -/
def create_3x2_sheet (A : Adapters DF S) (df_pl : DF)
    (factor forward_return fwd_ret_1 : String) (period : Nat) (factor_quantile : String)
    (periods : List Nat) (figsize : Nat × Nat) (axvlines : List String) : SheetBuild DF S :=
  let fig : Fig := ⟨3, 2, figsize⟩
  let df_ic := calc_ic DF df_pl [factor] [forward_return]
  let col := (ICFrame.columns DF df_ic).getD 1 ""
  let df_cum_ret := calc_cum_return_by_quantile DF df_pl fwd_ret_1 period factor_quantile
  let df_auto_corr := calc_auto_correlation DF df_pl factor periods
  let df_turnover := calc_quantile_turnover A df_pl periods factor_quantile
  let _q_min := pySeriesMin df_turnover.quantile_values
  let q_max := pySeriesMax df_turnover.quantile_values
  { fig := fig
    draws := [.icTs df_ic col axvlines 0,
              .hist (.ic df_ic) col 1,
              .icHeatmap df_ic col 2,
              .quantilePortfolio df_cum_ret fwd_ret_1 period axvlines 3,
              .autoCorrelation df_auto_corr axvlines 4,
              .turnoverQuantile df_turnover q_max factor_quantile periods axvlines 5]
    ret := SheetReturn.none
    df_after := df_pl }

end Builders

section ExportAdapter

/-- `fig_to_img` (reports.py lines 33-38): serialize the figure into an
in-memory buffer (`savefig` abstracts `fig.savefig(buf, format=format)`: the
bytes the drawing backend produces for a figure in a format), base64-encode the
buffer and wrap it in an inline image tag. -/
def fig_to_img (F : Type) (savefig : F → String → List Nat) (fig : F) (format : String) : String :=
  let buf := savefig fig format
  "<img src=\"data:image/" ++ format ++ ";base64," ++ b64encode buf ++ "\" />"

/-- `fig_to_img` called with its defaulted `format="png"` argument. -/
def fig_to_img_default (F : Type) (savefig : F → String → List Nat) (fig : F) : String :=
  fig_to_img F savefig fig "png"

/-- Everything observable about one `ipynb_to_html` call: the raised error or
returned exit code, the `os.system` invocations in order, the process
environment (`os.environ`) when the call finishes, and the output path the
call used (`none` when it raised before resolving one). -/
structure IpynbRun where
  result : Except String Int
  spawned : List String
  envFinal : List (String × String)
  outputUsed : Option String

/-- Line 83: `{k.upper(): str(v) for k, v in kwargs.items()}` — keys
upper-cased (ASCII, as Python identifiers are here), values stringified. -/
def upperEnv (V : Type) (pyStr : V → String) (kwargs : List (String × V)) :
    List (String × String) :=
  pyDictComp (kwargs.map (fun kv => (kv.1.toUpper, pyStr kv.2)))

/-- Lines 88/91: one `set K=V` (Windows) or `export K=V` (POSIX) binding. -/
def envLine (osIsNT : Bool) (kv : String × String) : String :=
  (if osIsNT then "set " else "export ") ++ kv.1 ++ "=" ++ kv.2

/-- Line 80: the `jupyter nbconvert` command string (f-string translated
verbatim, including the spaces left by empty flags). -/
def nbconvertCommand (template output : String) (no_input no_prompt : Bool)
    (execute : Bool) (timeout : Int) : String :=
  "jupyter nbconvert \"" ++ template ++ "\" --to=html --output=\"" ++ output ++ "\" " ++
    (if no_input then "--no-input" else "") ++ " " ++
    (if no_prompt then "--no-prompt" else "") ++ " " ++
    (if execute then "--execute" else "") ++
    " --allow-errors --ExecutePreprocessor.timeout=" ++ toString timeout

/-- Line 94: the one composite shell invocation — the environment bindings
chained with `&&` in front of the conversion command. -/
def compositeCommands (osIsNT : Bool) (env : List (String × String)) (command : String) : String :=
  String.intercalate "&&" (env.map (envLine osIsNT) ++ [command])

/-- Line 103: `os.system(f'"{output}"')` — open the produced file with the
platform's default handler. -/
def openCommand (output : String) : String := "\"" ++ output ++ "\""

/-- Lines 73-75: default the output to the template with `.ipynb` replaced by
`.html` (Python `str.replace`, all occurrences), then absolutize. -/
def resolvedOutput (absolute : String → String) (template : String) (output : Option String) :
    String :=
  absolute (output.getD (pyReplaceStr template ".ipynb" ".html"))

/-- `ipynb_to_html` (reports.py lines 41-104).  `pyStr` abstracts Python
`str`, `system` abstracts `os.system` (exit code of a shell command),
`absolute` abstracts `pathlib.Path.absolute`, `env0` is `os.environ` at entry
and `osIsNT` is `os.name == "nt"`.  The body never touches `os.environ`
(line 85 is commented out in the source), so the final environment is `env0`
on every path. -/
def ipynb_to_html (V : Type) (pyStr : V → String) (system : String → Int)
    (absolute : String → String) (env0 : List (String × String)) (osIsNT : Bool)
    (template : String) (output : Option String)
    (no_input no_prompt : Bool) (execute : Bool) (timeout : Int) (open_browser : Bool)
    (kwargs : List (String × V)) : IpynbRun :=
  let template := absolute template
  if pyEndsWith template ".ipynb" then
    let out := resolvedOutput absolute template output
    let command := nbconvertCommand template out no_input no_prompt execute timeout
    let kw := upperEnv V pyStr kwargs
    let commands := compositeCommands osIsNT kw command
    let ret := system commands
    { result := Except.ok ret
      spawned := if ret == 0 && open_browser then [commands, openCommand out] else [commands]
      envFinal := env0
      outputUsed := some out }
  else
    { result := Except.error "template must be a ipynb file"
      spawned := []
      envFinal := env0
      outputUsed := none }

end ExportAdapter

section Lemmas

/-- A left fold of `max` returns its seed or an element of the list. -/
theorem foldl_max_eq_or_mem (as : List Int) : ∀ a : Int, as.foldl max a = a ∨ as.foldl max a ∈ as := by
  induction as with
  | nil => intro a; left; rfl
  | cons b bs ih =>
    intro a
    rcases ih (max a b) with h | h
    · rcases max_choice a b with h2 | h2
      · left; rw [List.foldl_cons, h, h2]
      · right; rw [List.foldl_cons, h, h2]; exact List.mem_cons_self _ _
    · right; simp only [List.foldl_cons]; exact List.mem_cons_of_mem _ h

/-- A left fold of `max` bounds its seed and every element of the list. -/
theorem le_foldl_max (as : List Int) :
    ∀ a : Int, a ≤ as.foldl max a ∧ ∀ x ∈ as, x ≤ as.foldl max a := by
  induction as with
  | nil => intro a; exact ⟨le_refl a, by simp⟩
  | cons b bs ih =>
    intro a
    simp only [List.foldl_cons]
    refine ⟨le_trans (le_max_left a b) (ih (max a b)).1, ?_⟩
    intro x hx
    rcases List.mem_cons.mp hx with rfl | hx
    · exact le_trans (le_max_right a x) (ih (max a x)).1
    · exact (ih (max a b)).2 x hx

/-- `pySeriesMax` of a non-empty column is an element that bounds the column. -/
theorem pySeriesMax_spec (l : List Int) (h : l ≠ []) :
    ∃ m, pySeriesMax l = some m ∧ m ∈ l ∧ ∀ x ∈ l, x ≤ m := by
  match l, h with
  | a :: as, _ =>
    refine ⟨as.foldl max a, rfl, ?_, ?_⟩
    · rcases foldl_max_eq_or_mem as a with h1 | h1
      · rw [h1]; exact List.mem_cons_self _ _
      · exact List.mem_cons_of_mem _ h1
    · intro x hx
      rcases List.mem_cons.mp hx with rfl | hx
      · exact (le_foldl_max as x).1
      · exact (le_foldl_max as a).2 x hx

/-- `pySeriesMax` only depends on the multiset of column values, not on row
order. -/
theorem pySeriesMax_perm (l l' : List Int) (h : l.Perm l') : pySeriesMax l = pySeriesMax l' := by
  cases hl : l with
  | nil =>
    subst hl
    have : l' = [] := h.symm.eq_nil
    rw [this]
  | cons a as =>
    subst hl
    have hl' : l' ≠ [] := by
      intro h0
      subst h0
      exact absurd h.eq_nil (by simp)
    obtain ⟨m, hm, hmem, hub⟩ := pySeriesMax_spec (a :: as) (by simp)
    obtain ⟨m', hm', hmem', hub'⟩ := pySeriesMax_spec l' hl'
    have hmm : m = m' :=
      le_antisymm (hub' m (h.mem_iff.mp hmem)) (hub m' (h.mem_iff.mpr hmem'))
    rw [hm, hm', hmm]

/-- The worker of `pyReplace`, on a string that is `stem ++ pat` with no
occurrence of `pat` starting inside `stem`, rewrites exactly the final
occurrence. -/
theorem pyReplaceGo_stem (pat rep : List Char) (hp : pat ≠ []) :
    ∀ (stem : List Char) (fuel : Nat), (stem ++ pat).length ≤ fuel →
      (∀ i : Fin stem.length, ¬ pat.isPrefixOf (stem.drop i.1 ++ pat) = true) →
      pyReplaceGo pat rep fuel (stem ++ pat) = stem ++ rep := by
  intro stem
  induction stem with
  | nil =>
    intro fuel hf hocc
    match pat, hp with
    | p :: ps, _ =>
      match fuel, hf with
      | f + 1, _ =>
        simp only [List.nil_append]
        have hpre : (p :: ps).isPrefixOf (p :: ps) = true := by
          simp [List.isPrefixOf_iff_prefix]
        simp only [pyReplaceGo, hpre, if_true, List.drop_length]
        cases f <;> simp [pyReplaceGo]
  | cons c stem ih =>
    intro fuel hf hocc
    obtain ⟨f, rfl⟩ : ∃ f, fuel = f + 1 := by
      refine ⟨fuel - 1, ?_⟩
      simp only [List.length_append, List.length_cons] at hf
      omega
    have hnot : ¬ pat.isPrefixOf (c :: (stem ++ pat)) = true := by
      have := hocc ⟨0, by simp⟩
      simpa using this
    simp only [List.cons_append, pyReplaceGo, List.append_eq]
    rw [if_neg hnot]
    refine congrArg (c :: ·) (ih f ?_ ?_)
    · simp only [List.length_append, List.length_cons] at hf ⊢
      omega
    · intro i
      have := hocc ⟨i.1 + 1, Nat.add_lt_add_right i.isLt 1⟩
      simpa using this

/-- `pyReplace` on `stem ++ pat` with no occurrence of `pat` starting inside
`stem` replaces exactly the final occurrence (the extension). -/
theorem pyReplace_extension (pat rep stem : List Char) (hp : pat ≠ [])
    (hocc : ∀ i : Fin stem.length, ¬ pat.isPrefixOf (stem.drop i.1 ++ pat) = true) :
    pyReplace pat rep (stem ++ pat) = stem ++ rep :=
  pyReplaceGo_stem pat rep hp stem _ (le_refl _) hocc

/-- The slots the `create_2x3_sheet` loop draws into, starting at offset `i`. -/
theorem cumRetDraws_map_slot (DF : Type) (df : DF) (fwd fq : String) (axv : List String) :
    ∀ (ps : List Nat) (i : Nat),
      (cumRetDraws df fwd fq axv i ps).map PanelDraw.slot
        = (List.range ps.length).map (fun k => 3 + (i + k)) := by
  intro ps
  induction ps with
  | nil => intro i; simp [cumRetDraws]
  | cons p ps ih =>
    intro i
    simp only [cumRetDraws, List.map_cons, PanelDraw.slot, List.length_cons,
      List.range_succ_eq_map, List.map_map, ih (i + 1)]
    refine List.cons_eq_cons.mpr ⟨by omega, ?_⟩
    apply List.map_congr_left
    intro a _
    simp only [Function.comp_apply, Nat.succ_eq_add_one]
    omega

/-- Every draw of the `create_2x3_sheet` loop reads the same dataset snapshot
and the same quantile column. -/
theorem cumRetDraws_consistent (DF : Type) (df : DF) (fwd fq : String) (axv : List String) :
    ∀ (ps : List Nat) (i : Nat), ∀ d ∈ cumRetDraws df fwd fq axv i ps,
      PanelDraw.srcOf d = df ∧ ∀ q, PanelDraw.quantileColOf d = some q → q = fq := by
  intro ps
  induction ps with
  | nil => intro i d hd; simp [cumRetDraws] at hd
  | cons p ps ih =>
    intro i d hd
    rcases List.mem_cons.mp hd with rfl | hd
    · exact ⟨rfl, fun q hq => by simpa [PanelDraw.quantileColOf,
        calc_cum_return_by_quantile] using hq.symm⟩
    · exact ih (i + 1) d hd

end Lemmas

section Claims

/-- The layout contract of `create_2x3_sheet` for `n` requested periods: 2
rows, `ceil((3 + n) / 2)` columns, the `3 + n` drawn panels occupy flattened
slots `0, …, 3 + n - 1` (all inside the grid, so no indexing error), and for an
odd panel count the grid has exactly one extra slot — the last slot of the
second row — which no panel is drawn into. -/
def layout2x3Ok (DF S : Type) (b : SheetBuild DF S) (n : Nat) : Prop :=
  b.fig.rows = 2 ∧
  b.fig.cols = ceilDiv (3 + n) 2 ∧
  b.draws.length = 3 + n ∧
  b.draws.map PanelDraw.slot = List.range (3 + n) ∧
  (∀ d ∈ b.draws, PanelDraw.slot d < b.fig.rows * b.fig.cols) ∧
  (Odd (3 + n) →
    b.fig.rows * b.fig.cols = (3 + n) + 1 ∧
    ∀ d ∈ b.draws, PanelDraw.slot d ≠ b.fig.rows * b.fig.cols - 1)

/-- Claim C1: for every non-empty `periods` sequence, `create_2x3_sheet`
allocates a 2-row grid with `ceil((3 + len(periods)) / 2)` columns, draws
`3 + len(periods)` panels into slots that all exist, and when that count is
odd the last slot of the second row stays blank and nothing errors. -/
theorem create_2x3_layout (DF S : Type) (A : Adapters DF S) (df_pl : DF)
    (factor forward_return fwd_ret_1 : String) (periods : List Nat) (factor_quantile : String)
    (figsize : Nat × Nat) (axvlines : List String) (h : periods ≠ []) :
    layout2x3Ok DF S
      (create_2x3_sheet DF S A df_pl factor forward_return fwd_ret_1 periods factor_quantile
        figsize axvlines)
      periods.length := by
  have hslots :
      (create_2x3_sheet DF S A df_pl factor forward_return fwd_ret_1 periods factor_quantile
          figsize axvlines).draws.map PanelDraw.slot = List.range (3 + periods.length) := by
    simp only [create_2x3_sheet, List.map_append, List.map_cons, List.map_nil, PanelDraw.slot,
      cumRetDraws_map_slot]
    rw [List.range_add]
    refine congrArg ([0, 1, 2] ++ ·) ?_
    apply List.map_congr_left
    intro a _
    omega
  have hcols :
      (create_2x3_sheet DF S A df_pl factor forward_return fwd_ret_1 periods factor_quantile
          figsize axvlines).fig.cols = ceilDiv (3 + periods.length) 2 := by
    show ceilDiv (periods.length + 3) 2 = ceilDiv (3 + periods.length) 2
    unfold ceilDiv
    omega
  have hlen :
      (create_2x3_sheet DF S A df_pl factor forward_return fwd_ret_1 periods factor_quantile
          figsize axvlines).draws.length = 3 + periods.length := by
    rw [← List.length_map _ PanelDraw.slot, hslots, List.length_range]
  have hbound : 3 + periods.length ≤ 2 * ceilDiv (3 + periods.length) 2 := by
    unfold ceilDiv
    omega
  refine ⟨rfl, hcols, hlen, hslots, ?_, ?_⟩
  · intro d hd
    have hmem : PanelDraw.slot d ∈ List.range (3 + periods.length) := by
      rw [← hslots]
      exact List.mem_map_of_mem PanelDraw.slot hd
    rw [List.mem_range] at hmem
    have hrc :
        (create_2x3_sheet DF S A df_pl factor forward_return fwd_ret_1 periods factor_quantile
            figsize axvlines).fig.rows *
          (create_2x3_sheet DF S A df_pl factor forward_return fwd_ret_1 periods factor_quantile
            figsize axvlines).fig.cols = 2 * ceilDiv (3 + periods.length) 2 := by
      rw [hcols]; rfl
    rw [hrc]
    omega
  · intro hodd
    rw [Nat.odd_iff] at hodd
    have hrc :
        (create_2x3_sheet DF S A df_pl factor forward_return fwd_ret_1 periods factor_quantile
            figsize axvlines).fig.rows *
          (create_2x3_sheet DF S A df_pl factor forward_return fwd_ret_1 periods factor_quantile
            figsize axvlines).fig.cols = 2 * ceilDiv (3 + periods.length) 2 := by
      rw [hcols]; rfl
    have h2 : 2 * ceilDiv (3 + periods.length) 2 = (3 + periods.length) + 1 := by
      unfold ceilDiv
      omega
    refine ⟨by rw [hrc, h2], ?_⟩
    intro d hd
    have hmem : PanelDraw.slot d ∈ List.range (3 + periods.length) := by
      rw [← hslots]
      exact List.mem_map_of_mem PanelDraw.slot hd
    rw [List.mem_range] at hmem
    rw [hrc, h2]
    omega

/-- Adapter bundle over trivial data, for concrete instantiations. -/
def trivAdapters : Adapters Unit Unit :=
  ⟨fun _ _ => (), fun _ _ => (), fun _ _ _ => []⟩

/-- Concrete instance of `create_2x3_layout` at `periods = [2, 5, 10]`. -/
theorem create_2x3_layout_witness :
    layout2x3Ok Unit Unit
      (create_2x3_sheet Unit Unit trivAdapters () "f" "r" "r1" [2, 5, 10] "q" (12, 9) []) 3 :=
  create_2x3_layout Unit Unit trivAdapters () "f" "r" "r1" [2, 5, 10] "q" (12, 9) []
    (by decide)

/-- The quantile arguments handed to the per-quantile turnover renderer, in
draw order. -/
def turnoverSelections (DF S : Type) (b : SheetBuild DF S) : List (Option Int) :=
  b.draws.filterMap (fun d =>
    match d with
    | .turnoverQuantile _ q _ _ _ _ => some q
    | _ => none)

/-- Claim C2: `create_3x2_sheet` draws its per-quantile turnover panel for the
numerically maximum value present in the quantile column of the turnover
output, independently of the row order of that output. -/
theorem create_3x2_turnover_max (DF S : Type) (A A' : Adapters DF S) (df_pl : DF)
    (factor forward_return fwd_ret_1 : String) (period : Nat) (factor_quantile : String)
    (periods : List Nat) (figsize : Nat × Nat) (axvlines : List String)
    (hperm : (A'.turnoverQuantiles df_pl periods factor_quantile).Perm
      (A.turnoverQuantiles df_pl periods factor_quantile))
    (hne : A.turnoverQuantiles df_pl periods factor_quantile ≠ []) :
    ∃ q : Int,
      turnoverSelections DF S
          (create_3x2_sheet DF S A df_pl factor forward_return fwd_ret_1 period factor_quantile
            periods figsize axvlines) = [some q] ∧
      turnoverSelections DF S
          (create_3x2_sheet DF S A' df_pl factor forward_return fwd_ret_1 period factor_quantile
            periods figsize axvlines) = [some q] ∧
      q ∈ A.turnoverQuantiles df_pl periods factor_quantile ∧
      ∀ x ∈ A.turnoverQuantiles df_pl periods factor_quantile, x ≤ q := by
  obtain ⟨m, hm, hmem, hub⟩ := pySeriesMax_spec _ hne
  have hperm' := pySeriesMax_perm _ _ hperm
  refine ⟨m, ?_, ?_, hmem, hub⟩
  · simp [turnoverSelections, create_3x2_sheet, calc_quantile_turnover, hm]
  · simp [turnoverSelections, create_3x2_sheet, calc_quantile_turnover, hperm'.trans hm]

/-- Adapter bundle whose turnover quantile column is `[1, 3, 2]`. -/
def maxAdapters : Adapters Unit Unit :=
  ⟨fun _ _ => (), fun _ _ => (), fun _ _ _ => [1, 3, 2]⟩

/-- Adapter bundle whose turnover quantile column is `[2, 3, 1]`, a
row-reordering of `maxAdapters`. -/
def maxAdaptersPerm : Adapters Unit Unit :=
  ⟨fun _ _ => (), fun _ _ => (), fun _ _ _ => [2, 3, 1]⟩

/-- Concrete instance of `create_3x2_turnover_max` on the quantile columns
`[1, 3, 2]` and `[2, 3, 1]`. -/
theorem create_3x2_turnover_max_witness :
    ∃ q : Int,
      turnoverSelections Unit Unit
          (create_3x2_sheet Unit Unit maxAdapters () "f" "r" "r1" 5 "q" [1, 5, 10, 20] (12, 14)
            []) = [some q] ∧
      turnoverSelections Unit Unit
          (create_3x2_sheet Unit Unit maxAdaptersPerm () "f" "r" "r1" 5 "q" [1, 5, 10, 20]
            (12, 14) []) = [some q] ∧
      q ∈ maxAdapters.turnoverQuantiles () [1, 5, 10, 20] "q" ∧
      ∀ x ∈ maxAdapters.turnoverQuantiles () [1, 5, 10, 20] "q", x ≤ q :=
  create_3x2_turnover_max Unit Unit maxAdapters maxAdaptersPerm () "f" "r" "r1" 5 "q"
    [1, 5, 10, 20] (12, 14) [] (by decide) (by decide)

/-- Claim C8: two `create_1x3_sheet` calls differing only in `axvlines` return
the same value — the same figure, the same IC summary, the same histogram
summary and the same cumulative-return curve; the reference lines only affect
drawing. -/
theorem create_1x3_axvlines_cosmetic (DF S : Type) (A : Adapters DF S) (df_pl : DF)
    (factor forward_return fwd_ret_1 : String) (period : Nat) (factor_quantile : String)
    (figsize : Nat × Nat) (axvlines1 axvlines2 : List String) :
    (create_1x3_sheet DF S A df_pl factor forward_return fwd_ret_1 period factor_quantile
        figsize axvlines1).ret =
    (create_1x3_sheet DF S A df_pl factor forward_return fwd_ret_1 period factor_quantile
        figsize axvlines2).ret := rfl

/-- Claim C9 (amended): `create_2x2_sheet`, `create_2x3_sheet` and
`create_3x2_sheet` return `None`, while `create_1x3_sheet` returns the tuple
of its figure, the IC summary, the histogram summary and the cumulative-return
curve. -/
theorem sheet_return_values (DF S : Type) (A : Adapters DF S) (df_pl : DF)
    (factor forward_return fwd_ret_1 : String) (period : Nat) (factor_quantile : String)
    (periods periods2 : List Nat) (fs1 fs2 fs3 fs4 : Nat × Nat) (axvlines : List String) :
    (create_2x2_sheet DF S A df_pl factor forward_return fwd_ret_1 period factor_quantile fs1
        axvlines).ret = SheetReturn.none ∧
    (create_2x3_sheet DF S A df_pl factor forward_return fwd_ret_1 periods factor_quantile fs2
        axvlines).ret = SheetReturn.none ∧
    (create_3x2_sheet DF S A df_pl factor forward_return fwd_ret_1 period factor_quantile
        periods2 fs3 axvlines).ret = SheetReturn.none ∧
    (create_1x3_sheet DF S A df_pl factor forward_return fwd_ret_1 period factor_quantile fs4
        axvlines).ret =
      SheetReturn.tuple ⟨1, 3, fs4⟩
        (A.icSummary (calc_ic DF df_pl [factor] [forward_return])
          ((ICFrame.columns DF (calc_ic DF df_pl [factor] [forward_return])).getD 1 ""))
        (A.histSummaryDataset df_pl factor)
        (calc_cum_return_by_quantile DF df_pl fwd_ret_1 period factor_quantile) :=
  ⟨rfl, rfl, rfl, rfl⟩

/-- Claim C9 (counterexample to the claim as stated): `create_2x2_sheet`
returns `None`, which is neither a figure nor the
`(figure, summary, summary, curve)` tuple. -/
theorem create_2x2_returns_neither_figure_nor_tuple :
    ¬ ((∃ f, (create_2x2_sheet Unit Unit trivAdapters () "f" "r" "r1" 5 "q" (12, 9) []).ret
          = SheetReturn.figureOnly f) ∨
       (∃ f ic hist cum,
          (create_2x2_sheet Unit Unit trivAdapters () "f" "r" "r1" 5 "q" (12, 9) []).ret
            = SheetReturn.tuple f ic hist cum)) := by
  rintro (⟨f, hf⟩ | ⟨f, ic, hist, cum, hc⟩)
  · simp [create_2x2_sheet] at hf
  · simp [create_2x2_sheet] at hc

/-- A sheet build read the caller's table only (it is unchanged on return) and
derived every panel from that same snapshot and the same quantile column. -/
def sheetConsistent (DF S : Type) (df_pl : DF) (factor_quantile : String)
    (b : SheetBuild DF S) : Prop :=
  b.df_after = df_pl ∧
  ∀ d ∈ b.draws, PanelDraw.srcOf d = df_pl ∧
    ∀ q, PanelDraw.quantileColOf d = some q → q = factor_quantile

/-- Claim C10: every sheet-build call (2×2, 1×3, 2×3, 3×2) leaves the caller's
table unchanged, and every panel it draws is derived from that same input
snapshot and the same quantile-bucket column. -/
theorem sheets_read_only_and_consistent (DF S : Type) (A : Adapters DF S) (df_pl : DF)
    (factor forward_return fwd_ret_1 : String) (period : Nat) (factor_quantile : String)
    (periods periods2 : List Nat) (fs1 fs2 fs3 fs4 : Nat × Nat) (axvlines : List String) :
    sheetConsistent DF S df_pl factor_quantile
      (create_2x2_sheet DF S A df_pl factor forward_return fwd_ret_1 period factor_quantile fs1
        axvlines) ∧
    sheetConsistent DF S df_pl factor_quantile
      (create_1x3_sheet DF S A df_pl factor forward_return fwd_ret_1 period factor_quantile fs2
        axvlines) ∧
    sheetConsistent DF S df_pl factor_quantile
      (create_2x3_sheet DF S A df_pl factor forward_return fwd_ret_1 periods factor_quantile fs3
        axvlines) ∧
    sheetConsistent DF S df_pl factor_quantile
      (create_3x2_sheet DF S A df_pl factor forward_return fwd_ret_1 period factor_quantile
        periods2 fs4 axvlines) := by
  refine ⟨⟨rfl, ?_⟩, ⟨rfl, ?_⟩, ⟨rfl, ?_⟩, ⟨rfl, ?_⟩⟩
  · intro d hd
    simp only [create_2x2_sheet, List.mem_cons, List.not_mem_nil, or_false] at hd
    rcases hd with rfl | rfl | rfl | rfl <;>
      simp [PanelDraw.srcOf, PanelDraw.quantileColOf, calc_ic, calc_cum_return_by_quantile]
  · intro d hd
    simp only [create_1x3_sheet, List.mem_cons, List.not_mem_nil, or_false] at hd
    rcases hd with rfl | rfl | rfl <;>
      simp [PanelDraw.srcOf, PanelDraw.quantileColOf, calc_ic, calc_cum_return_by_quantile]
  · intro d hd
    simp only [create_2x3_sheet, List.append_eq, List.mem_append, List.mem_cons,
      List.not_mem_nil, or_false] at hd
    rcases hd with (rfl | rfl | rfl) | hd
    · simp [PanelDraw.srcOf, PanelDraw.quantileColOf, calc_ic]
    · simp [PanelDraw.srcOf, PanelDraw.quantileColOf, calc_ic]
    · simp [PanelDraw.srcOf, PanelDraw.quantileColOf, calc_ic]
    · exact cumRetDraws_consistent DF df_pl fwd_ret_1 factor_quantile axvlines periods 0 d hd
  · intro d hd
    simp only [create_3x2_sheet, List.mem_cons, List.not_mem_nil, or_false] at hd
    rcases hd with rfl | rfl | rfl | rfl | rfl | rfl <;>
      simp [PanelDraw.srcOf, PanelDraw.quantileColOf, calc_ic, calc_cum_return_by_quantile,
        calc_auto_correlation, calc_quantile_turnover]

/-- The base64 encoder agrees with the RFC 4648 test vectors (as
`base64.b64encode` does). -/
theorem b64encode_rfc4648_vectors :
    b64encode [] = "" ∧ b64encode [102] = "Zg==" ∧ b64encode [102, 111] = "Zm8=" ∧
    b64encode [102, 111, 111] = "Zm9v" ∧ b64encode [102, 111, 111, 98] = "Zm9vYg==" ∧
    b64encode [77, 97, 110] = "TWFu" := by decide

/-- Claim C7: `fig_to_img` returns exactly the inline image markup
`<img src="data:image/FORMAT;base64,PAYLOAD" />` with the payload the base64
encoding of the figure's serialized bytes in that format, and the format
defaults to `png`. -/
theorem fig_to_img_markup (F : Type) (savefig : F → String → List Nat) (fig : F)
    (format : String) :
    fig_to_img F savefig fig format =
      "<img src=\"data:image/" ++ format ++ ";base64," ++ b64encode (savefig fig format) ++
        "\" />" ∧
    fig_to_img_default F savefig fig = fig_to_img F savefig fig "png" :=
  ⟨rfl, rfl⟩

/-- Claim C3: `ipynb_to_html` raises the invalid-template error exactly when
the absolutized template path does not end in `.ipynb`, and in that case it
spawns no process at all. -/
theorem ipynb_invalid_template (V : Type) (pyStr : V → String) (system : String → Int)
    (absolute : String → String) (env0 : List (String × String)) (osIsNT : Bool)
    (template : String) (output : Option String) (no_input no_prompt : Bool)
    (execute : Bool) (timeout : Int) (open_browser : Bool) (kwargs : List (String × V)) :
    ((ipynb_to_html V pyStr system absolute env0 osIsNT template output no_input no_prompt
          execute timeout open_browser kwargs).result
        = Except.error "template must be a ipynb file"
      ↔ pyEndsWith (absolute template) ".ipynb" = false) ∧
    (pyEndsWith (absolute template) ".ipynb" = false →
      (ipynb_to_html V pyStr system absolute env0 osIsNT template output no_input no_prompt
          execute timeout open_browser kwargs).spawned = []) := by
  cases hb : pyEndsWith (absolute template) ".ipynb" <;>
    simp [ipynb_to_html, hb]

/-- Concrete instance of `ipynb_invalid_template`: a `.txt` template raises
and nothing is spawned. -/
theorem ipynb_invalid_template_witness :
    pyEndsWith (id "/t/x.txt") ".ipynb" = false ∧
    (ipynb_to_html Unit (fun _ => "") (fun _ => 0) id [] false "/t/x.txt" Option.none false
        false true 120 true []).spawned = [] :=
  ⟨by decide,
    (ipynb_invalid_template Unit (fun _ => "") (fun _ => 0) id [] false "/t/x.txt" Option.none
        false false true 120 true []).2 (by decide)⟩

/-- Claim C4 (amended): with the output argument omitted, `ipynb_to_html` uses
the absolutized template with every occurrence of the substring `.ipynb`
replaced by `.html`; when `.ipynb` occurs only as the final extension — no
occurrence starts inside the stem — this is the template with its extension
replaced and the rest unchanged. -/
theorem ipynb_default_output (V : Type) (pyStr : V → String) (system : String → Int)
    (absolute : String → String) (env0 : List (String × String)) (osIsNT : Bool)
    (template : String) (no_input no_prompt : Bool) (execute : Bool) (timeout : Int)
    (open_browser : Bool) (kwargs : List (String × V)) (stem : List Char)
    (hT : (absolute template).data = stem ++ (".ipynb" : String).data)
    (hocc : ∀ i : Fin stem.length,
      ¬ (".ipynb" : String).data.isPrefixOf (stem.drop i.1 ++ (".ipynb" : String).data) = true) :
    (ipynb_to_html V pyStr system absolute env0 osIsNT template Option.none no_input no_prompt
        execute timeout open_browser kwargs).outputUsed
      = some (absolute (String.mk (stem ++ (".html" : String).data))) := by
  have hend : pyEndsWith (absolute template) ".ipynb" = true := by
    unfold pyEndsWith
    rw [hT]
    simp only [List.isSuffixOf_iff_suffix]
    exact ⟨stem, rfl⟩
  have hrepl : pyReplaceStr (absolute template) ".ipynb" ".html"
      = String.mk (stem ++ (".html" : String).data) := by
    unfold pyReplaceStr
    rw [hT, pyReplace_extension _ _ _ (by decide) hocc]
  simp [ipynb_to_html, hend, resolvedOutput, hrepl]

/-- Concrete instance of `ipynb_default_output` at template `/a/b.ipynb`:
the defaulted output is `/a/b.html`. -/
theorem ipynb_default_output_witness :
    (ipynb_to_html Unit (fun _ => "") (fun _ => 0) id [] false "/a/b.ipynb" Option.none false
        false true 120 true []).outputUsed
      = some (id (String.mk (("/a/b" : String).data ++ (".html" : String).data))) :=
  ipynb_default_output Unit (fun _ => "") (fun _ => 0) id [] false "/a/b.ipynb" false false
    true 120 true [] ("/a/b" : String).data (by decide) (by decide)

/-- Claim C4 (counterexample to the claim as stated): for the template
`/a/.ipynb/x.ipynb` — absolute, so absolutization is the identity — the
defaulted output is `/a/.html/x.html`: the directory component changed, so the
output is not the template with only its extension replaced
(`/a/.ipynb/x.html`). -/
theorem ipynb_default_output_counterexample :
    (ipynb_to_html Unit (fun _ => "") (fun _ => 0) id [] false "/a/.ipynb/x.ipynb" Option.none
        false false true 120 true []).outputUsed = some "/a/.html/x.html" ∧
    ("/a/.html/x.html" : String) ≠ "/a/.ipynb/x.html" := by
  constructor
  · decide
  · decide

/-- Claim C5: the extra key/value pairs are upper-cased and stringified and
appear only inside the single composite shell invocation, as `set`/`export`
bindings chained in front of the conversion command; the calling process's
environment is returned untouched. -/
theorem ipynb_env_isolation (V : Type) (pyStr : V → String) (system : String → Int)
    (absolute : String → String) (env0 : List (String × String)) (osIsNT : Bool)
    (template : String) (output : Option String) (no_input no_prompt : Bool)
    (execute : Bool) (timeout : Int) (open_browser : Bool) (kwargs : List (String × V))
    (h : pyEndsWith (absolute template) ".ipynb" = true) :
    (ipynb_to_html V pyStr system absolute env0 osIsNT template output no_input no_prompt
        execute timeout open_browser kwargs).envFinal = env0 ∧
    ((ipynb_to_html V pyStr system absolute env0 osIsNT template output no_input no_prompt
        execute timeout open_browser kwargs).spawned
        = [compositeCommands osIsNT (upperEnv V pyStr kwargs)
            (nbconvertCommand (absolute template)
              (resolvedOutput absolute (absolute template) output) no_input no_prompt execute
              timeout)] ∨
     (ipynb_to_html V pyStr system absolute env0 osIsNT template output no_input no_prompt
        execute timeout open_browser kwargs).spawned
        = [compositeCommands osIsNT (upperEnv V pyStr kwargs)
            (nbconvertCommand (absolute template)
              (resolvedOutput absolute (absolute template) output) no_input no_prompt execute
              timeout),
           openCommand (resolvedOutput absolute (absolute template) output)]) := by
  refine ⟨by simp [ipynb_to_html, h], ?_⟩
  simp only [ipynb_to_html, h, if_true]
  cases hb : (system (compositeCommands osIsNT (upperEnv V pyStr kwargs)
      (nbconvertCommand (absolute template) (resolvedOutput absolute (absolute template) output)
        no_input no_prompt execute timeout)) == 0 && open_browser)
  · left; simp [hb]
  · right; simp [hb]

/-- Concrete instance of `ipynb_env_isolation`: one extra pair `("a", 7)`,
a non-empty ambient environment returned unchanged. -/
theorem ipynb_env_isolation_witness :
    (ipynb_to_html Nat toString (fun _ => 1) id [("HOME", "/root")] false "/t/x.ipynb"
        Option.none false false true 120 true [("a", 7)]).envFinal = [("HOME", "/root")] ∧
    ((ipynb_to_html Nat toString (fun _ => 1) id [("HOME", "/root")] false "/t/x.ipynb"
        Option.none false false true 120 true [("a", 7)]).spawned
        = [compositeCommands false (upperEnv Nat toString [("a", 7)])
            (nbconvertCommand "/t/x.ipynb" "/t/x.html" false false true 120)] ∨
     (ipynb_to_html Nat toString (fun _ => 1) id [("HOME", "/root")] false "/t/x.ipynb"
        Option.none false false true 120 true [("a", 7)]).spawned
        = [compositeCommands false (upperEnv Nat toString [("a", 7)])
            (nbconvertCommand "/t/x.ipynb" "/t/x.html" false false true 120),
           openCommand "/t/x.html"]) :=
  ipynb_env_isolation Nat toString (fun _ => 1) id [("HOME", "/root")] false "/t/x.ipynb"
    Option.none false false true 120 true [("a", 7)] (by decide)

/-- Claim C6: `ipynb_to_html` returns the raw exit code of the composite
process as its result — never an error for a non-zero code — and spawns the
open-the-output command exactly when that exit code is zero and
`open_browser` is set. -/
theorem ipynb_exit_code_passthrough (V : Type) (pyStr : V → String) (system : String → Int)
    (absolute : String → String) (env0 : List (String × String)) (osIsNT : Bool)
    (template : String) (output : Option String) (no_input no_prompt : Bool)
    (execute : Bool) (timeout : Int) (open_browser : Bool) (kwargs : List (String × V))
    (h : pyEndsWith (absolute template) ".ipynb" = true) :
    (ipynb_to_html V pyStr system absolute env0 osIsNT template output no_input no_prompt
        execute timeout open_browser kwargs).result
      = Except.ok (system (compositeCommands osIsNT (upperEnv V pyStr kwargs)
          (nbconvertCommand (absolute template)
            (resolvedOutput absolute (absolute template) output) no_input no_prompt execute
            timeout))) ∧
    (ipynb_to_html V pyStr system absolute env0 osIsNT template output no_input no_prompt
        execute timeout open_browser kwargs).spawned
      = (if system (compositeCommands osIsNT (upperEnv V pyStr kwargs)
            (nbconvertCommand (absolute template)
              (resolvedOutput absolute (absolute template) output) no_input no_prompt execute
              timeout)) == 0 && open_browser
         then [compositeCommands osIsNT (upperEnv V pyStr kwargs)
                (nbconvertCommand (absolute template)
                  (resolvedOutput absolute (absolute template) output) no_input no_prompt
                  execute timeout),
               openCommand (resolvedOutput absolute (absolute template) output)]
         else [compositeCommands osIsNT (upperEnv V pyStr kwargs)
                (nbconvertCommand (absolute template)
                  (resolvedOutput absolute (absolute template) output) no_input no_prompt
                  execute timeout)]) := by
  constructor <;> simp [ipynb_to_html, h]

/-- Concrete instance of `ipynb_exit_code_passthrough`: the shell reports exit
code 3, the call returns `Except.ok 3` and does not open the output. -/
theorem ipynb_exit_code_passthrough_witness :
    (ipynb_to_html Unit (fun _ => "") (fun _ => (3 : Int)) id [] false "/t/x.ipynb" Option.none
        false false true 120 true []).result = Except.ok 3 ∧
    (ipynb_to_html Unit (fun _ => "") (fun _ => (3 : Int)) id [] false "/t/x.ipynb" Option.none
        false false true 120 true []).spawned
      = [compositeCommands false (upperEnv Unit (fun _ => "") [])
          (nbconvertCommand "/t/x.ipynb" "/t/x.html" false false true 120)] := by
  have h := ipynb_exit_code_passthrough Unit (fun _ => "") (fun _ => (3 : Int)) id [] false
    "/t/x.ipynb" Option.none false false true 120 true [] (by decide)
  exact ⟨h.1, h.2⟩

end Claims

end AlphaInspect
